import Mathlib

/-!
Verification of the `RemoteConnection` module of the nuclide remote-connection
package, as a shallow embedding in Lean.

The JavaScript source is single-threaded with cooperative async I/O, so each
operation is embedded as a pure function threading an explicit `Registry`
(the process-wide session/connection registry held by `ServerConnection`) and
returning the list of externally observable actions (`Event`s: emitter
notifications, session attach/detach, session shutdown, saved-config lookups,
log calls) it performed, in order.  External collaborators (the filesystem
service, the parsers, the source-control service, the saved-configuration
store, DNS lookup, and the fallible part of session detachment) are an
`Env` record of oracles, so theorems quantify over every possible behaviour
of the collaborators.  Fallible operations return `Except JSError`.
-/

/-- A JavaScript error value, with the fields this module inspects or sets:
`name` (e.g. "SyntaxError", "VersionMismatchError"), `code` (e.g. "ENOENT"),
and the `sshHandshakeErrorType` tag written by the saved-config path. -/
structure JSError where
  name : String
  code : Option String
  message : String
  sshHandshakeErrorType : Option String
deriving DecidableEq, Repr

/-- Parsed contents of a project descriptor file: `projectContents.paths`
is `some list` when the parsed value has an array `paths` field, `none`
otherwise (`projectPaths == null || !Array.isArray(projectPaths)`). -/
structure Project where
  paths : Option (List String)
deriving DecidableEq, Repr

/-- A saved connection configuration as returned by `getConnectionConfig`
(host/port plus credentials; credentials are irrelevant to control flow). -/
structure SavedConfig where
  host : String
  port : Nat
deriving DecidableEq, Repr

/-- The `RemoteConnectionConfiguration` record (fields relevant to control
flow; certificates are opaque to this module's logic). -/
structure Config where
  host : String
  port : Nat
  cwd : String
  displayTitle : String
  promptReconnectOnFailure : Option Bool
deriving DecidableEq, Repr

/-- A `RemoteConnection` instance: its host (via its `ServerConnection`),
`_cwd`, `_displayTitle`, `_promptReconnectOnFailure`,
`_hgRepositoryDescription` and `_alwaysShutdownIfLast` fields. -/
structure RemoteConnection where
  host : String
  cwd : String
  displayTitle : String
  promptReconnectOnFailure : Bool
  hgRepo : Option String
  alwaysShutdownIfLast : Bool
deriving DecidableEq, Repr

/-- A server session (a `ServerConnection`) with its list of attached
remote connections, in attachment order. -/
structure Session where
  host : String
  connections : List RemoteConnection
deriving DecidableEq, Repr

/-- The process-wide registry: the live server sessions (a closed session is
removed from the list). -/
structure Registry where
  sessions : List Session
deriving DecidableEq, Repr

/-- Externally observable actions, recorded in order of occurrence:
emitter notifications (`didAdd` = 'did-add', `didClose` = 'did-close'),
session attach/detach (`detach` records the `shutdownIfLast` argument),
session shutdown (`serverClose`), source-control lookup, watch start,
saved-config store lookup, DNS lookup, and log calls. -/
inductive Event where
  | attach (cwd : String)
  | detach (cwd : String) (shutdownIfLast : Bool)
  | hgFetch (cwd : String)
  | didAdd (cwd : String) (title : String)
  | didClose (cwd : String)
  | watchBegin (cwd : String)
  | serverClose (host : String)
  | configLookup (host : String)
  | dnsLookup (host : String)
  | logWarn (host : String)
  | logError (host : String)
deriving DecidableEq, Repr

/-- The external collaborators, as oracles.  Each field is one asynchronous
or fallible call site of the module: session acquisition
(`ServerConnection.getOrCreate`), `fsService.resolveRealPath`,
`fsService.readFile`, `toml.parse`, `season.parse`,
`SourceControlService.getHgRepository`, the synchronous part of
`_watchRootProjectDirectory`, the I/O outcome of
`ServerConnection.removeConnection`, `getConnectionConfig`, and
`lookupPreferIpv6`. -/
structure Env where
  getOrCreate : Config → Except JSError Unit
  resolveRealPath : String → Except JSError String
  readFile : String → Except JSError String
  tomlParse : String → Except JSError Project
  seasonParse : String → Except JSError Project
  getHgRepository : String → Except JSError (Option String)
  watchBegin : String → Except JSError Unit
  removeConnectionResult : String → Except JSError Unit
  getConnectionConfig : String → Option SavedConfig
  lookupPreferIpv6 : String → Except JSError String

/-- JavaScript `String.prototype.startsWith`: `pre` is a raw character
prefix of `s`. -/
def jsStartsWith (s pre : String) : Bool :=
  pre.data.isPrefixOf s.data

/-- Modelled from the spec: `nuclideUri.extname` (nuclide-commons, not under
src/) — the extension of the final path segment, as used to detect the
project-descriptor formats. -/
def extname (p : String) : String :=
  let rbase := p.data.reverse.takeWhile (fun c => c != '/')
  if rbase.contains '.' then
    String.mk ('.' :: (rbase.takeWhile (fun c => c != '.')).reverse)
  else ""

/-- `hasAtomProjectFormat` from the source: the path ends in `.json` or
`.cson`. -/
def hasAtomProjectFormat (filepath : String) : Bool :=
  let ext := extname filepath
  ext == ".json" || ext == ".cson"

/-- The `nuclide://` scheme of remote URIs, as written in
`getUriOfRemotePath`. -/
def remoteScheme : String := "nuclide://"

/-- Modelled from the spec: `nuclideUri.isRemote` (nuclide-commons, not under
src/) — the string is a `nuclide://` URI. -/
def isRemote (p : String) : Bool :=
  remoteScheme.data.isPrefixOf p.data

/-- Modelled from the spec: the hostname component of `nuclideUri.parse` —
for `nuclide://host/path`, the characters between the scheme and the first
slash. -/
def parseHostname (uri : String) : Option String :=
  if isRemote uri then
    some (String.mk ((uri.data.drop remoteScheme.length).takeWhile (fun c => c != '/')))
  else none

/-- Modelled from the spec: the path component of `nuclideUri.parse` — for
`nuclide://host/path`, everything from the first slash after the hostname;
for a non-remote string, the string itself. -/
def parsePath (uri : String) : String :=
  if isRemote uri then
    String.mk ((uri.data.drop remoteScheme.length).dropWhile (fun c => c != '/'))
  else uri

/-- Modelled from the spec: `nuclideUri.getHostname` on a remote URI. -/
def getHostname (uri : String) : String :=
  (parseHostname uri).getD ""

/-- Modelled from the spec: `nuclideUri.dirname` — the path with its final
segment removed. -/
def dirname (p : String) : String :=
  String.mk (((p.data.reverse.dropWhile (fun c => c != '/')).drop 1).reverse)

/-- Modelled from the spec: `nuclideUri.resolve dir p` — `p` itself when
absolute, otherwise `p` joined under `dir`. -/
def resolvePath (base p : String) : String :=
  if p.data.head? = some '/' then p else base ++ "/" ++ p

/-- Modelled from the spec: `ServerConnection.getByHostname` — the live
session for a hostname, if any (the Session Provider is external to src/). -/
def ServerConnection.getByHostname (st : Registry) (hostname : String) : Option Session :=
  st.sessions.find? (fun s => s.host == hostname)

/-- `RemoteConnection.getByHostname` from the source: the connections of the
hostname's session, or `[]` when there is no session. -/
def RemoteConnection.getByHostname (st : Registry) (hostname : String) :
    List RemoteConnection :=
  match ServerConnection.getByHostname st hostname with
  | none => []
  | some s => s.connections

/-- `RemoteConnection.getByHostnameAndPath` from the source: filter the
hostname's connections by `path.startsWith(connection.cwd)` and take
element `[0]`. -/
def RemoteConnection.getByHostnameAndPath (st : Registry) (hostname path : String) :
    Option RemoteConnection :=
  ((RemoteConnection.getByHostname st hostname).filter
    (fun connection => jsStartsWith path connection.cwd)).head?

/-- Modelled from the spec: the registry effect of
`ServerConnection.getOrCreate` — reuse the session for the host when one is
live, otherwise establish a new session with no attached connections. -/
def ensureSession (st : Registry) (host : String) : Registry :=
  match ServerConnection.getByHostname st host with
  | some _ => st
  | none => { sessions := st.sessions ++ [{ host := host, connections := [] }] }

/-- Modelled from the spec: `ServerConnection.close` — the session is torn
down and leaves the registry. -/
def closeServer (st : Registry) (host : String) : Registry :=
  { sessions := st.sessions.filter (fun s => !(s.host == host)) }

/-- Modelled from the spec: `ServerConnection.addConnection` — append the
connection to its session's attachment list. -/
def addConnection (st : Registry) (conn : RemoteConnection) : Registry :=
  { sessions := st.sessions.map (fun s =>
      if s.host == conn.host then { s with connections := s.connections ++ [conn] }
      else s) }

/-- In-place mutation of a registered connection object (the source mutates
`this`, which is aliased by the registry): replace `conn` by `conn'` in its
session's list. -/
def replaceConnection (st : Registry) (conn conn' : RemoteConnection) : Registry :=
  { sessions := st.sessions.map (fun s =>
      if s.host == conn.host then
        { s with connections := s.connections.map (fun c => if c == conn then conn' else c) }
      else s) }

/-- Modelled from the spec: `ServerConnection.removeConnection` — detach the
connection (the detachment I/O may fail, per the oracle); on success the
underlying session is closed when its attachment count reaches zero and
either `shutdownIfLast` or the connection's always-shutdown flag is set. -/
def removeConnection (st : Registry) (conn : RemoteConnection) (shutdownIfLast : Bool)
    (env : Env) : Except JSError Unit × Registry × List Event :=
  match env.removeConnectionResult conn.cwd with
  | .error e => (.error e, st, [.detach conn.cwd shutdownIfLast])
  | .ok _ =>
    let st2 : Registry := { sessions := st.sessions.map (fun s =>
        if s.host == conn.host then { s with connections := s.connections.erase conn }
        else s) }
    if (RemoteConnection.getByHostname st2 conn.host).length == 0 &&
        (shutdownIfLast || conn.alwaysShutdownIfLast) then
      (.ok (), closeServer st2 conn.host,
        [.detach conn.cwd shutdownIfLast, .serverClose conn.host])
    else
      (.ok (), st2, [.detach conn.cwd shutdownIfLast])

/-- `RemoteConnection.close` from the source: dispose subscriptions (no
observable registry effect), `await removeConnection(this, shutdownIfLast)`,
then emit 'did-close'.  There is no try/finally: a rejection of
`removeConnection` propagates and the emission does not happen. -/
def RemoteConnection.close (st : Registry) (conn : RemoteConnection) (shutdownIfLast : Bool)
    (env : Env) : Except JSError Unit × Registry × List Event :=
  let t := removeConnection st conn shutdownIfLast env
  match t.1 with
  | .error e => (.error e, t.2.1, t.2.2)
  | .ok _ => (.ok (), t.2.1, t.2.2 ++ [.didClose conn.cwd])

/-- `RemoteConnection._initialize` from the source: `addConnection(this)`
first; then in a try block fetch the hg repository description (mutating
`this`), emit 'did-add', and start the root-directory watch; on any failure
call `this.close(false)` (not awaited, its own outcome discarded) and
re-throw the original error. -/
def RemoteConnection.initConn (st : Registry) (conn : RemoteConnection) (env : Env) :
    Except JSError RemoteConnection × Registry × List Event :=
  let st1 := addConnection st conn
  match env.getHgRepository conn.cwd with
  | .error e =>
    let t := RemoteConnection.close st1 conn false env
    (.error e, t.2.1, [.attach conn.cwd, .hgFetch conn.cwd] ++ t.2.2)
  | .ok repo =>
    let conn' := { conn with hgRepo := repo }
    let st2 := replaceConnection st1 conn conn'
    match env.watchBegin conn.cwd with
    | .error e =>
      let t := RemoteConnection.close st2 conn' false env
      (.error e, t.2.1,
        [.attach conn.cwd, .hgFetch conn.cwd, .didAdd conn.cwd conn.displayTitle] ++ t.2.2)
    | .ok _ =>
      (.ok conn', st2,
        [.attach conn.cwd, .hgFetch conn.cwd, .didAdd conn.cwd conn.displayTitle,
          .watchBegin conn.cwd])

/-- `parseProject` from the source: try `toml.parse`; on a SyntaxError fall
back to `season.parse`; re-throw any other parse error. -/
def parseProject (env : Env) (raw : String) : Except JSError Project :=
  match env.tomlParse raw with
  | .ok p => .ok p
  | .error err =>
    if err.name == "SyntaxError" then env.seasonParse raw else .error err

/-- The `contents` value of `findOrCreate`: read the real path when it has a
project-descriptor extension, with a read failure caught to `null`;
otherwise `null`. -/
def descriptorContents (env : Env) (realPath : String) : Option String :=
  if hasAtomProjectFormat realPath then
    match env.readFile realPath with
    | .ok c => some c
    | .error _ => none
  else none

/-- Outcome of the try block of `findOrCreate`: either an early return of an
existing registered connection, or the list of directories to open. -/
inductive TryOutcome where
  | existing (c : RemoteConnection)
  | dirs (ds : List String)
deriving DecidableEq, Repr

/-- The try block of `findOrCreate` (steps 2-4): resolve the real path; read
and parse a project descriptor if the extension indicates one; in the
non-descriptor case, when the real path differs from the requested remote
`cwd`, return an already-registered connection for (hostname of cwd,
realPath) if present; otherwise produce the directory list (descriptor
`paths` resolved against the descriptor's parent, or the parent itself).
`atom.project.replace` only rewrites the editor's project state and is not
part of the registry model. -/
def resolveDirectories (st : Registry) (cfg : Config) (env : Env) :
    Except JSError TryOutcome :=
  match env.resolveRealPath cfg.cwd with
  | .error e => .error e
  | .ok realPath =>
    match descriptorContents env realPath with
    | none =>
      if realPath != cfg.cwd && isRemote cfg.cwd then
        match RemoteConnection.getByHostnameAndPath st (getHostname cfg.cwd) realPath with
        | some existingConnection => .ok (.existing existingConnection)
        | none => .ok (.dirs [realPath])
      else .ok (.dirs [realPath])
    | some contents =>
      match parseProject env contents with
      | .error e => .error e
      | .ok projectContents =>
        let dn := dirname realPath
        match projectContents.paths with
        | some projectPaths => .ok (.dirs (projectPaths.map (fun p => resolvePath dn p)))
        | none => .ok (.dirs [dn])

/-- The `new RemoteConnection(serverConnection, dir, i === 0 ? displayTitle
: '', promptReconnectOnFailure !== false)` constructor call of
`findOrCreate`. -/
def mkConn (cfg : Config) (dir : String) (i : Nat) : RemoteConnection :=
  { host := cfg.host
    cwd := dir
    displayTitle := if i = 0 then cfg.displayTitle else ""
    promptReconnectOnFailure := cfg.promptReconnectOnFailure != some false
    hgRepo := none
    alwaysShutdownIfLast := false }

/-- The `Promise.all(directories.map(...))` of `findOrCreate`: construct and
run the per-directory connections' init step, index `i` onward (the
single-threaded model sequences them; a rejection propagates). -/
def initAll (st : Registry) (cfg : Config) (dirs : List String) (i : Nat) (env : Env) :
    Except JSError (List RemoteConnection) × Registry × List Event :=
  match dirs with
  | [] => (.ok [], st, [])
  | d :: rest =>
    let t := RemoteConnection.initConn st (mkConn cfg d i) env
    match t.1 with
    | .error e => (.error e, t.2.1, t.2.2)
    | .ok c =>
      let u := initAll t.2.1 cfg rest (i + 1) env
      match u.1 with
      | .error e => (.error e, u.2.1, t.2.2 ++ u.2.2)
      | .ok cs => (.ok (c :: cs), u.2.1, t.2.2 ++ u.2.2)

/-- `RemoteConnection.findOrCreate` from the source: acquire the session;
run the try block; in its catch, close the session when it has zero
attached connections, then re-throw; otherwise run the per-directory init
steps and return `connections[0]` (which is `undefined`, i.e. `none`, for an
empty directory list). -/
def RemoteConnection.findOrCreate (st : Registry) (cfg : Config) (env : Env) :
    Except JSError (Option RemoteConnection) × Registry × List Event :=
  match env.getOrCreate cfg with
  | .error e => (.error e, st, [])
  | .ok _ =>
    let st1 := ensureSession st cfg.host
    match resolveDirectories st1 cfg env with
    | .error err =>
      if (RemoteConnection.getByHostname st1 cfg.host).length == 0 then
        (.error err, closeServer st1 cfg.host, [.serverClose cfg.host])
      else (.error err, st1, [])
    | .ok (.existing c) => (.ok (some c), st1, [])
    | .ok (.dirs directories) =>
      let t := initAll st1 cfg directories 0 env
      match t.1 with
      | .error e => (.error e, t.2.1, t.2.2)
      | .ok connections => (.ok connections.head?, t.2.1, t.2.2)

/-- The configuration merged in `_createConnectionBySavedConfig`:
`{...connectionConfig, cwd, displayTitle, promptReconnectOnFailure}`. -/
def cfgOfSaved (saved : SavedConfig) (cwd displayTitle : String) (prompt : Bool) : Config :=
  { host := saved.host
    port := saved.port
    cwd := cwd
    displayTitle := displayTitle
    promptReconnectOnFailure := some prompt }

/-- `RemoteConnection._createConnectionBySavedConfig` from the source: fetch
the saved configuration (null yields null); delegate to `findOrCreate`; on
failure, tag an ENOENT error with `DIRECTORY_NOT_FOUND` and re-throw, log a
`VersionMismatchError` as a warning and yield null, log anything else as an
error and yield null. -/
def RemoteConnection.createConnectionBySavedConfig (st : Registry)
    (host cwd displayTitle : String) (prompt : Bool) (env : Env) :
    Except JSError (Option RemoteConnection) × Registry × List Event :=
  match env.getConnectionConfig host with
  | none => (.ok none, st, [.configLookup host])
  | some saved =>
    let t := RemoteConnection.findOrCreate st (cfgOfSaved saved cwd displayTitle prompt) env
    match t.1 with
    | .ok c => (.ok c, t.2.1, [.configLookup host] ++ t.2.2)
    | .error e =>
      if e.code == some "ENOENT" then
        (.error { e with sshHandshakeErrorType := some "DIRECTORY_NOT_FOUND" },
          t.2.1, [.configLookup host] ++ t.2.2)
      else if e.name == "VersionMismatchError" then
        (.ok none, t.2.1, [.configLookup host] ++ t.2.2 ++ [.logWarn host])
      else
        (.ok none, t.2.1, [.configLookup host] ++ t.2.2 ++ [.logError host])

/-- The saved-configuration phase of `reconnect`: try the saved config by
hostname (a rejection propagates — this call is not inside a try block);
when it yields null, try by resolved IP address inside a try block whose
catch swallows ANY error of the block — both a DNS failure and a failure of
the second saved-config attempt — leaving the null result. -/
def reconnectSavedPhase (st : Registry) (host cwd displayTitle : String) (prompt : Bool)
    (env : Env) : Except JSError (Option RemoteConnection) × Registry × List Event :=
  let t := RemoteConnection.createConnectionBySavedConfig st host cwd displayTitle prompt env
  match t.1 with
  | .error e => (.error e, t.2.1, t.2.2)
  | .ok (some c) => (.ok (some c), t.2.1, t.2.2)
  | .ok none =>
    match env.lookupPreferIpv6 host with
    | .error _ => (.ok none, t.2.1, t.2.2 ++ [.dnsLookup host])
    | .ok address =>
      let u := RemoteConnection.createConnectionBySavedConfig t.2.1 address cwd
        displayTitle prompt env
      match u.1 with
      | .error _ => (.ok none, u.2.1, t.2.2 ++ [.dnsLookup host] ++ u.2.2)
      | .ok c => (.ok c, u.2.1, t.2.2 ++ [.dnsLookup host] ++ u.2.2)

/-- `RemoteConnection.reconnect` from the source: when `cwd` is not a
project-descriptor path and a registered connection covers it, return that
connection; otherwise run the saved-configuration phase. -/
def RemoteConnection.reconnect (st : Registry) (host cwd displayTitle : String)
    (prompt : Bool) (env : Env) :
    Except JSError (Option RemoteConnection) × Registry × List Event :=
  if !hasAtomProjectFormat cwd then
    match RemoteConnection.getByHostnameAndPath st host cwd with
    | some connection => (.ok (some connection), st, [])
    | none => reconnectSavedPhase st host cwd displayTitle prompt env
  else reconnectSavedPhase st host cwd displayTitle prompt env

/-- `getUriOfRemotePath` from the source: the template literal
`nuclide://hostname + remotePath`. -/
def RemoteConnection.getUriOfRemotePath (conn : RemoteConnection) (remotePath : String) :
    String :=
  remoteScheme ++ conn.host ++ remotePath

/-- `getPathOfUri` from the source: `nuclideUri.parse(uri).path`. -/
def RemoteConnection.getPathOfUri (uri : String) : String :=
  parsePath uri

/-- The per-index display titles handed out by `findOrCreate`:
`i === 0 ? displayTitle : ''` for `n` consecutive directories starting at
index `i`. -/
def titlesFrom (title : String) (i n : Nat) : List String :=
  match n with
  | 0 => []
  | Nat.succ m => (if i = 0 then title else "") :: titlesFrom title (i + 1) m

/-- A generic error value. -/
def errPlain : JSError :=
  { name := "Error", code := none, message := "boom", sshHandshakeErrorType := none }

/-- An ENOENT error: the target path does not exist. -/
def errEnoent : JSError :=
  { name := "Error", code := some "ENOENT", message := "no such directory",
    sshHandshakeErrorType := none }

/-- A version-mismatch error. -/
def errVersion : JSError :=
  { name := "VersionMismatchError", code := none, message := "mismatch",
    sshHandshakeErrorType := none }

/-- A syntax error, as thrown by the primary descriptor parser. -/
def errSyn : JSError :=
  { name := "SyntaxError", code := none, message := "bad toml",
    sshHandshakeErrorType := none }

/-- A detachment failure of `removeConnection`. -/
def errDetach : JSError :=
  { name := "Error", code := none, message := "detach failed",
    sshHandshakeErrorType := none }

/-- `errEnoent` tagged by the saved-config path. -/
def errTagged : JSError :=
  { errEnoent with sshHandshakeErrorType := some "DIRECTORY_NOT_FOUND" }

/-- An environment where every collaborator succeeds: real paths resolve to
themselves, descriptor reads fail (caught to null), parses yield no path
list, source control and watch succeed, detachment succeeds, the saved-config
store is empty, and DNS fails. -/
def envOk : Env :=
  { getOrCreate := fun _ => .ok ()
    resolveRealPath := fun p => .ok p
    readFile := fun _ => .error errPlain
    tomlParse := fun _ => .ok { paths := none }
    seasonParse := fun _ => .ok { paths := none }
    getHgRepository := fun _ => .ok none
    watchBegin := fun _ => .ok ()
    removeConnectionResult := fun _ => .ok ()
    getConnectionConfig := fun _ => none
    lookupPreferIpv6 := fun _ => .error errPlain }

/-- A registered connection for host `h` rooted at `/p`. -/
def connA : RemoteConnection :=
  { host := "h", cwd := "/p", displayTitle := "T", promptReconnectOnFailure := true,
    hgRepo := none, alwaysShutdownIfLast := false }

/-- A registry with one session for `h` holding `connA`. -/
def regA : Registry := { sessions := [{ host := "h", connections := [connA] }] }

/-- The empty registry. -/
def regEmpty : Registry := { sessions := [] }

/-- A connection rooted at `/data/foo`, for the raw-prefix lookup example. -/
def connB : RemoteConnection :=
  { host := "h2", cwd := "/data/foo", displayTitle := "", promptReconnectOnFailure := true,
    hgRepo := none, alwaysShutdownIfLast := false }

/-- A registry with one session for `h2` holding `connB`. -/
def regB : Registry := { sessions := [{ host := "h2", connections := [connB] }] }

/-- A not-yet-attached connection for host `h` rooted at `/q`. -/
def connQ : RemoteConnection :=
  { host := "h", cwd := "/q", displayTitle := "", promptReconnectOnFailure := true,
    hgRepo := none, alwaysShutdownIfLast := false }

/-- The registry after `connQ` is attached to the session of `regA`. -/
def stQ : Registry := { sessions := [{ host := "h", connections := [connA, connQ] }] }

/-- Environment whose path resolution fails (for the factory cleanup
witness). -/
def envResolveFail : Env := { envOk with resolveRealPath := fun _ => .error errPlain }

/-- Environment whose detachment I/O fails (for the close counterexample). -/
def envDetachFail : Env :=
  { envOk with removeConnectionResult := fun _ => .error errDetach }

/-- Environment for the reconnect IP-fallback counterexample: the target
path does not exist, the saved-config store only knows the IP address
`1.2.3.4`, and DNS resolves to it. -/
def envC3 : Env :=
  { envOk with
    resolveRealPath := fun _ => .error errEnoent
    getConnectionConfig := fun h =>
      if h == "1.2.3.4" then some { host := "1.2.3.4", port := 1 } else none
    lookupPreferIpv6 := fun _ => .ok "1.2.3.4" }

/-- Environment where the saved-config store knows host `sh` and the target
path does not exist. -/
def envC3w : Env :=
  { envOk with
    resolveRealPath := fun _ => .error errEnoent
    getConnectionConfig := fun h =>
      if h == "sh" then some { host := "sh", port := 1 } else none }

/-- Environment for the descriptor-skips-dedup counterexample: the requested
path resolves to `/p/a.json`, whose contents read and parse successfully
with no path list. -/
def envC4 : Env :=
  { envOk with
    resolveRealPath := fun _ => .ok "/p/a.json"
    readFile := fun _ => .ok "x" }

/-- A registered connection for host `h` rooted at the descriptor path
itself. -/
def connAJ : RemoteConnection :=
  { host := "h", cwd := "/p/a.json", displayTitle := "T", promptReconnectOnFailure := true,
    hgRepo := none, alwaysShutdownIfLast := false }

/-- A registry with one session for `h` holding `connAJ`. -/
def regAJ : Registry := { sessions := [{ host := "h", connections := [connAJ] }] }

/-- A config whose remote `cwd` resolves elsewhere. -/
def cfgC4 : Config :=
  { host := "h", port := 1, cwd := "nuclide://h/x", displayTitle := "T",
    promptReconnectOnFailure := none }

/-- The connection `findOrCreate` builds in the descriptor-skips-dedup
counterexample: rooted at the descriptor's parent `/p`. -/
def connP : RemoteConnection :=
  { host := "h", cwd := "/p", displayTitle := "T", promptReconnectOnFailure := true,
    hgRepo := none, alwaysShutdownIfLast := false }

/-- Environment where the requested path resolves to `/p/real` (not a
descriptor). -/
def envC4w : Env := { envOk with resolveRealPath := fun _ => .ok "/p/real" }

/-- Config for the dedup witness: a remote `cwd` on host `h`. -/
def cfgC4w : Config :=
  { host := "h", port := 1, cwd := "nuclide://h/x", displayTitle := "T",
    promptReconnectOnFailure := none }

/-- Environment for the project-expansion witness: the requested path
resolves to the descriptor `/proj/app.json` listing `["a", "b"]`. -/
def envC5 : Env :=
  { envOk with
    resolveRealPath := fun _ => .ok "/proj/app.json"
    readFile := fun _ => .ok "x"
    tomlParse := fun _ => .ok { paths := some ["a", "b"] } }

/-- The config of the project-expansion witness. -/
def cfgC5 : Config :=
  { host := "h", port := 1, cwd := "nuclide://h/app", displayTitle := "T",
    promptReconnectOnFailure := none }

/-- The index-0 connection of the project-expansion witness. -/
def cC5a : RemoteConnection :=
  { host := "h", cwd := "/proj/a", displayTitle := "T", promptReconnectOnFailure := true,
    hgRepo := none, alwaysShutdownIfLast := false }

/-- The index-1 connection of the project-expansion witness. -/
def cC5b : RemoteConnection :=
  { host := "h", cwd := "/proj/b", displayTitle := "", promptReconnectOnFailure := true,
    hgRepo := none, alwaysShutdownIfLast := false }

/-- The registry after the project-expansion witness completes. -/
def stC5 : Registry := { sessions := [{ host := "h", connections := [cC5a, cC5b] }] }

/-- The event list of the project-expansion witness. -/
def evsC5 : List Event :=
  [.attach "/proj/a", .hgFetch "/proj/a", .didAdd "/proj/a" "T", .watchBegin "/proj/a",
    .attach "/proj/b", .hgFetch "/proj/b", .didAdd "/proj/b" "", .watchBegin "/proj/b"]

/-- A config for host `h` with a plain remote path. -/
def cfgC1 : Config :=
  { host := "h", port := 1, cwd := "/c", displayTitle := "T",
    promptReconnectOnFailure := none }

/-- Environment whose primary parse fails with a syntax error. -/
def envC9 : Env := { envOk with tomlParse := fun _ => .error errSyn }

/-- Environment whose source-control lookup fails (for the init-step failure
witness). -/
def envHgFail : Env := { envOk with getHgRepository := fun _ => .error errPlain }

/-- Environment for the reconnect both-attempts-fail witness: the store has
saved configurations for host `vh` and for its resolved address `5.6.7.8`,
but every connection attempt fails with a version mismatch, so both
saved-config attempts are logged to null. -/
def envC8 : Env :=
  { envOk with
    resolveRealPath := fun _ => .error errVersion
    getConnectionConfig := fun h =>
      if h == "vh" then some { host := "vh", port := 1 }
      else if h == "5.6.7.8" then some { host := "5.6.7.8", port := 2 } else none
    lookupPreferIpv6 := fun _ => .ok "5.6.7.8" }

/-- The head of a filtered list is the first match: JavaScript's
`array.filter(p)[0]` equals a first-match search. -/
theorem filterHeadEqFind {α : Type} (p : α → Bool) (l : List α) :
    (l.filter p).head? = l.find? p := by
  induction l with
  | nil => rfl
  | cons a t ih => cases h : p a <;> simp [List.filter_cons, List.find?_cons, h, ih]

/-- Dropping while a predicate holds skips a block that satisfies it
everywhere. -/
theorem dropWhileAppendAll {α : Type} {p : α → Bool} {l1 : List α}
    (h : ∀ c ∈ l1, p c = true) (l2 : List α) :
    (l1 ++ l2).dropWhile p = l2.dropWhile p := by
  induction l1 with
  | nil => rfl
  | cons a t ih =>
    have ha : p a = true := h a (List.mem_cons_self a t)
    simp only [List.cons_append, List.dropWhile_cons, ha, if_true]
    exact ih (fun c hc => h c (List.mem_cons_of_mem a hc))

/-- C7: `getByHostnameAndPath(H, P)` returns the first registered connection
for `H` whose `cwd` is a raw string prefix of `P` (first in registration
order), and `none` exactly when no registered connection's `cwd` is a string
prefix of `P`; matching is raw character-prefix (`startsWith`), with no
path-segment-boundary requirement. -/
theorem getByHostnameAndPath_firstMatch (st : Registry) (hostname path : String) :
    RemoteConnection.getByHostnameAndPath st hostname path =
      (RemoteConnection.getByHostname st hostname).find?
        (fun c => jsStartsWith path c.cwd) ∧
    (∀ c, RemoteConnection.getByHostnameAndPath st hostname path = some c →
      c ∈ RemoteConnection.getByHostname st hostname ∧ c.cwd.data <+: path.data) ∧
    (RemoteConnection.getByHostnameAndPath st hostname path = none ↔
      ∀ c ∈ RemoteConnection.getByHostname st hostname, ¬ c.cwd.data <+: path.data) := by
  have hbase : RemoteConnection.getByHostnameAndPath st hostname path =
      (RemoteConnection.getByHostname st hostname).find?
        (fun c => jsStartsWith path c.cwd) :=
    filterHeadEqFind _ _
  refine ⟨hbase, ?_, ?_⟩
  · intro c hc
    rw [hbase] at hc
    refine ⟨List.mem_of_find?_eq_some hc, ?_⟩
    have := List.find?_some hc
    rwa [jsStartsWith, List.isPrefixOf_iff_prefix] at this
  · rw [hbase, List.find?_eq_none]
    constructor
    · intro h c hc hpre
      exact h c hc (by rwa [jsStartsWith, List.isPrefixOf_iff_prefix])
    · intro h c hc hpre
      exact h c hc (by rwa [jsStartsWith, List.isPrefixOf_iff_prefix] at hpre)

/-- Witness for C7: in a registry holding a connection rooted at
`/data/foo`, the lookup for `/data/foobar` is a first-match search, and its
result `connB` matches on a raw string prefix that crosses no path-segment
boundary. -/
theorem getByHostnameAndPath_firstMatch_witness :
    RemoteConnection.getByHostnameAndPath regB "h2" "/data/foobar" =
      (RemoteConnection.getByHostname regB "h2").find?
        (fun c => jsStartsWith "/data/foobar" c.cwd) ∧
    (connB ∈ RemoteConnection.getByHostname regB "h2" ∧
      connB.cwd.data <+: "/data/foobar".data) :=
  ⟨(getByHostnameAndPath_firstMatch regB "h2" "/data/foobar").1,
    (getByHostnameAndPath_firstMatch regB "h2" "/data/foobar").2.1 connB rfl⟩

/-- C9: descriptor parsing applies the primary parser first; the secondary
parser runs exactly when the primary fails with a SyntaxError; a non-syntax
primary failure is returned as is, and from inside `findOrCreate` such a
parse failure propagates to the caller. -/
theorem parseProject_fallback (env : Env) (raw : String) :
    (∀ p, env.tomlParse raw = .ok p → parseProject env raw = .ok p) ∧
    (∀ err, env.tomlParse raw = .error err → err.name = "SyntaxError" →
      parseProject env raw = env.seasonParse raw) ∧
    (∀ err, env.tomlParse raw = .error err → err.name ≠ "SyntaxError" →
      parseProject env raw = .error err) ∧
    (∀ st cfg realPath err,
      env.getOrCreate cfg = .ok () →
      env.resolveRealPath cfg.cwd = .ok realPath →
      descriptorContents env realPath = some raw →
      parseProject env raw = .error err →
      (RemoteConnection.findOrCreate st cfg env).1 = .error err) := by
  refine ⟨?_, ?_, ?_, ?_⟩
  · intro p hp
    simp [parseProject, hp]
  · intro err herr hname
    simp [parseProject, herr, hname]
  · intro err herr hname
    simp [parseProject, herr, hname]
  · intro st cfg realPath err hok hreal hcont hparse
    have hres : resolveDirectories (ensureSession st cfg.host) cfg env = .error err := by
      unfold resolveDirectories
      simp only [hreal, hcont, hparse]
    unfold RemoteConnection.findOrCreate
    simp only [hok, hres]
    split <;> rfl

/-- Witness for C9: with a primary parser that throws a SyntaxError, parsing
falls back to the secondary parser on the same content. -/
theorem parseProject_fallback_witness :
    parseProject envC9 "raw" = envC9.seasonParse "raw" :=
  (parseProject_fallback envC9 "raw").2.1 errSyn rfl rfl

/-- C10: converting a remote path to its `nuclide://` URI and parsing the
URI back yields the original path, for any host without a slash and any
absolute remote path. -/
theorem uriPathRoundTrip (conn : RemoteConnection) (p : String)
    (hhost : ∀ c ∈ conn.host.data, c ≠ '/') (hp : p.data.head? = some '/') :
    RemoteConnection.getPathOfUri (conn.getUriOfRemotePath p) = p := by
  unfold RemoteConnection.getPathOfUri RemoteConnection.getUriOfRemotePath parsePath isRemote
  have hdata : (remoteScheme ++ conn.host ++ p).data =
      remoteScheme.data ++ (conn.host.data ++ p.data) := by
    rw [String.data_append, String.data_append, List.append_assoc]
  have hpre : remoteScheme.data.isPrefixOf
      (remoteScheme.data ++ (conn.host.data ++ p.data)) = true := by
    rw [List.isPrefixOf_iff_prefix]
    exact List.prefix_append _ _
  have hlen : remoteScheme.length = remoteScheme.data.length := rfl
  rw [hdata, hpre, if_pos rfl, hlen, List.drop_left]
  have hall : ∀ c ∈ conn.host.data, (c != '/') = true := by
    intro c hc
    simpa [bne_iff_ne] using hhost c hc
  rw [dropWhileAppendAll hall]
  cases hpd : p.data with
  | nil => rw [hpd] at hp; exact absurd hp (by simp)
  | cons a t =>
    rw [hpd] at hp
    have ha : a = '/' := by simpa using hp
    subst ha
    simp only [List.dropWhile_cons]
    norm_num
    rw [← hpd]

/-- Witness for C10: the path `/a/b` of the connection on host `h` round
trips through its URI. -/
theorem uriPathRoundTrip_witness :
    RemoteConnection.getPathOfUri (connA.getUriOfRemotePath "/a/b") = "/a/b" :=
  uriPathRoundTrip connA "/a/b" (by decide) rfl


/-- The event list of a detachment starts with the detach attempt, recording
the `shutdownIfLast` argument. -/
theorem removeConnection_evs_head (st : Registry) (conn : RemoteConnection) (b : Bool)
    (env : Env) :
    ∃ tail, (removeConnection st conn b env).2.2 = Event.detach conn.cwd b :: tail := by
  unfold removeConnection
  cases h : env.removeConnectionResult conn.cwd with
  | error e => exact ⟨[], by simp [h]⟩
  | ok u =>
    simp only [h]
    split
    · exact ⟨[Event.serverClose conn.host], rfl⟩
    · exact ⟨[], rfl⟩

/-- The detach attempt is always among the observable actions of `close`,
with the `shutdownIfLast` argument it was called with. -/
theorem close_detach_mem (st : Registry) (conn : RemoteConnection) (b : Bool) (env : Env) :
    Event.detach conn.cwd b ∈ (RemoteConnection.close st conn b env).2.2 := by
  obtain ⟨tail, htail⟩ := removeConnection_evs_head st conn b env
  unfold RemoteConnection.close
  cases hr : (removeConnection st conn b env).1 with
  | error e =>
    simp only [hr]
    rw [htail]
    exact List.mem_cons_self _ _
  | ok u =>
    simp only [hr]
    rw [htail]
    simp

/-- A detachment with `shutdownIfLast = false` on a connection whose
always-shutdown flag is unset never shuts the session down. -/
theorem removeConnection_no_serverClose (st : Registry) (conn : RemoteConnection)
    (env : Env) (ha : conn.alwaysShutdownIfLast = false) (hh : String) :
    Event.serverClose hh ∉ (removeConnection st conn false env).2.2 := by
  unfold removeConnection
  cases h : env.removeConnectionResult conn.cwd with
  | error e => simp [h]
  | ok u => simp [h, ha]

/-- A `close(false)` on a connection whose always-shutdown flag is unset
never shuts the session down. -/
theorem close_no_serverClose (st : Registry) (conn : RemoteConnection) (env : Env)
    (ha : conn.alwaysShutdownIfLast = false) (hh : String) :
    Event.serverClose hh ∉ (RemoteConnection.close st conn false env).2.2 := by
  have hgen := removeConnection_no_serverClose st conn env ha hh
  unfold RemoteConnection.close
  cases hr : (removeConnection st conn false env).1 with
  | error e => simpa [hr] using hgen
  | ok u =>
    simp only [hr, List.mem_append]
    intro hmem
    rcases hmem with hmem | hmem
    · exact hgen hmem
    · simp at hmem

/-- The init step of a connection whose always-shutdown flag is unset never
shuts the session down. -/
theorem initConn_no_serverClose (st : Registry) (conn : RemoteConnection) (env : Env)
    (ha : conn.alwaysShutdownIfLast = false) (hh : String) :
    Event.serverClose hh ∉ (RemoteConnection.initConn st conn env).2.2 := by
  unfold RemoteConnection.initConn
  cases h1 : env.getHgRepository conn.cwd with
  | error e =>
    simp only [List.cons_append, List.nil_append, List.mem_cons, not_or]
    refine ⟨by simp, by simp, ?_⟩
    exact close_no_serverClose _ _ _ ha hh
  | ok repo =>
    cases h2 : env.watchBegin conn.cwd with
    | error e =>
      simp only [List.cons_append, List.nil_append, List.mem_cons, not_or]
      refine ⟨by simp, by simp, by simp, ?_⟩
      exact close_no_serverClose _ { conn with hgRepo := repo } _ ha hh
    | ok u =>
      simp

/-- The per-directory init loop never shuts the session down: every
connection it constructs has the always-shutdown flag unset, and a failing
init step closes its connection with `shutdownIfLast = false`. -/
theorem initAll_no_serverClose (cfg : Config) (env : Env) (hh : String) :
    ∀ (dirs : List String) (st : Registry) (i : Nat),
      Event.serverClose hh ∉ (initAll st cfg dirs i env).2.2 := by
  intro dirs
  induction dirs with
  | nil => intro st i; simp [initAll]
  | cons d rest ih =>
    intro st i
    unfold initAll
    cases ht : (RemoteConnection.initConn st (mkConn cfg d i) env).1 with
    | error e =>
      simp only [ht]
      exact initConn_no_serverClose _ _ _ rfl hh
    | ok c =>
      cases hu : (initAll (RemoteConnection.initConn st (mkConn cfg d i) env).2.1
          cfg rest (i + 1) env).1 with
      | error e =>
        simp only [ht, hu, List.mem_append, not_or]
        exact ⟨initConn_no_serverClose _ _ _ rfl hh, ih _ _⟩
      | ok cs =>
        simp only [ht, hu, List.mem_append, not_or]
        exact ⟨initConn_no_serverClose _ _ _ rfl hh, ih _ _⟩

/-- C6: the init step of a connection attaches it to its session as its very
first action (before the source-control fetch or any other step); the
registration (attach) precedes any 'did-add' notification for the
connection; and on any failure of the subsequent steps the original error is
re-raised (it is the error of the source-control fetch or of the watch
start) after invoking `close(shutdownIfLast = false)`, observable as the
detach-with-false attempt. -/
theorem initConn_lifecycle (st : Registry) (conn : RemoteConnection) (env : Env) :
    ((RemoteConnection.initConn st conn env).2.2).head? = some (Event.attach conn.cwd) ∧
    (∀ (t : String) (i : Nat), ((RemoteConnection.initConn st conn env).2.2)[i]? =
        some (Event.didAdd conn.cwd t) →
      ∃ j : Nat, j < i ∧ ((RemoteConnection.initConn st conn env).2.2)[j]? =
        some (Event.attach conn.cwd)) ∧
    (∀ e, (RemoteConnection.initConn st conn env).1 = .error e →
      (env.getHgRepository conn.cwd = .error e ∨ env.watchBegin conn.cwd = .error e) ∧
      Event.detach conn.cwd false ∈ (RemoteConnection.initConn st conn env).2.2) := by
  have hhead : ((RemoteConnection.initConn st conn env).2.2).head? =
      some (Event.attach conn.cwd) := by
    unfold RemoteConnection.initConn
    cases h1 : env.getHgRepository conn.cwd with
    | error e => simp
    | ok repo =>
      cases h2 : env.watchBegin conn.cwd with
      | error e => simp
      | ok u => simp
  refine ⟨hhead, ?_, ?_⟩
  · intro t i hi
    refine ⟨0, ?_, ?_⟩
    · rcases Nat.eq_zero_or_pos i with hz | hpos
      · subst hz
        rw [← List.head?_eq_getElem?, hhead] at hi
        simp at hi
      · exact hpos
    · rw [← List.head?_eq_getElem?, hhead]
  · intro e he
    unfold RemoteConnection.initConn at he ⊢
    cases h1 : env.getHgRepository conn.cwd with
    | error e0 =>
      rw [h1] at he
      simp only at he
      cases he
      constructor
      · exact Or.inl rfl
      · simp only [List.cons_append, List.mem_cons]
        refine Or.inr (Or.inr ?_)
        exact close_detach_mem _ conn false env
    | ok repo =>
      rw [h1] at he
      cases h2 : env.watchBegin conn.cwd with
      | error e0 =>
        rw [h2] at he
        simp only at he
        cases he
        constructor
        · exact Or.inr rfl
        · simp only [h2, List.cons_append, List.mem_cons]
          refine Or.inr (Or.inr (Or.inr ?_))
          exact close_detach_mem _ { conn with hgRepo := repo } false env
      | ok u =>
        rw [h2] at he
        simp at he

/-- Witness for C6: with a failing source-control lookup, the init step of
`connQ` reports the lookup's error and performs the `close(false)` detach. -/
theorem initConn_lifecycle_witness :
    (envHgFail.getHgRepository connQ.cwd = .error errPlain ∨
      envHgFail.watchBegin connQ.cwd = .error errPlain) ∧
    Event.detach connQ.cwd false ∈ (RemoteConnection.initConn regA connQ envHgFail).2.2 :=
  (initConn_lifecycle regA connQ envHgFail).2.2 errPlain rfl

/-- C1: a failure of `findOrCreate` after session acquisition propagates
unchanged, and the session is shut down by the factory's cleanup exactly
when it has zero attached connections at the moment of the failure.  For a
failure in the resolution phase (steps 2-4, before this call attaches
anything), the catch block shuts the session down precisely when its
connection list is empty; for a failure in a per-directory init step, the
failing connection is itself attached at that moment and no session
shutdown occurs anywhere in the emitted actions. -/
theorem findOrCreate_failure_cleanup (st : Registry) (cfg : Config) (env : Env)
    (hok : env.getOrCreate cfg = .ok ()) :
    (∀ err, resolveDirectories (ensureSession st cfg.host) cfg env = .error err →
      (RemoteConnection.findOrCreate st cfg env).1 = .error err ∧
      (Event.serverClose cfg.host ∈ (RemoteConnection.findOrCreate st cfg env).2.2 ↔
        RemoteConnection.getByHostname (ensureSession st cfg.host) cfg.host = [])) ∧
    (∀ dirs, resolveDirectories (ensureSession st cfg.host) cfg env = .ok (.dirs dirs) →
      ∀ e, (initAll (ensureSession st cfg.host) cfg dirs 0 env).1 = .error e →
      (RemoteConnection.findOrCreate st cfg env).1 = .error e ∧
      (RemoteConnection.findOrCreate st cfg env).2.2 =
        (initAll (ensureSession st cfg.host) cfg dirs 0 env).2.2 ∧
      (∀ hh, Event.serverClose hh ∉ (RemoteConnection.findOrCreate st cfg env).2.2)) := by
  constructor
  · intro err hres
    unfold RemoteConnection.findOrCreate
    simp only [hok, hres]
    cases hlen :
        ((RemoteConnection.getByHostname (ensureSession st cfg.host) cfg.host).length == 0) with
    | true =>
      refine ⟨rfl, ?_⟩
      have hnil : RemoteConnection.getByHostname (ensureSession st cfg.host) cfg.host = [] :=
        List.length_eq_zero.mp (beq_iff_eq.mp hlen)
      simp [hnil]
    | false =>
      refine ⟨rfl, ?_⟩
      have hne : RemoteConnection.getByHostname (ensureSession st cfg.host) cfg.host ≠ [] := by
        intro hnil
        rw [hnil] at hlen
        simp at hlen
      simp [hne]
  · intro dirs hres e hinit
    unfold RemoteConnection.findOrCreate
    simp only [hok, hres, hinit]
    refine ⟨trivial, trivial, ?_⟩
    intro hh
    exact initAll_no_serverClose cfg env hh dirs (ensureSession st cfg.host) 0

/-- Witness for C1: with a failing path resolution on an empty registry, the
resolution error comes back unchanged and the freshly created session is
shut down because it has zero attached connections. -/
theorem findOrCreate_failure_cleanup_witness :
    (RemoteConnection.findOrCreate regEmpty cfgC1 envResolveFail).1 = .error errPlain ∧
    (Event.serverClose cfgC1.host ∈
        (RemoteConnection.findOrCreate regEmpty cfgC1 envResolveFail).2.2 ↔
      RemoteConnection.getByHostname (ensureSession regEmpty cfgC1.host) cfgC1.host = []) :=
  (findOrCreate_failure_cleanup regEmpty cfgC1 envResolveFail rfl).1 errPlain rfl

/-- Erasing a connection inside its hostname's session, seen through the
registry lookup: the hostname's connection list is the old list with the
connection erased. -/
theorem getByHostname_eraseAdjust (st : Registry) (h : String) (conn : RemoteConnection) :
    RemoteConnection.getByHostname
      { sessions := st.sessions.map
          (fun s => if s.host == h then { s with connections := s.connections.erase conn }
            else s) } h =
      (RemoteConnection.getByHostname st h).erase conn := by
  have hcomp : (fun s : Session => s.host == h) ∘
      (fun s : Session =>
        if s.host == h then { s with connections := s.connections.erase conn } else s) =
      fun s : Session => s.host == h := by
    funext s
    by_cases hs : s.host = h <;> simp [hs]
  unfold RemoteConnection.getByHostname ServerConnection.getByHostname
  rw [List.find?_map, hcomp]
  cases hf : st.sessions.find? (fun s => s.host == h) with
  | none => simp
  | some s =>
    have hs := List.find?_some hf
    simp [beq_iff_eq.mp hs]

/-- After `closeServer`, the closed hostname has no registered
connections. -/
theorem getByHostname_closeServer (st : Registry) (h : String) :
    RemoteConnection.getByHostname (closeServer st h) h = [] := by
  unfold RemoteConnection.getByHostname ServerConnection.getByHostname closeServer
  have hnone : (st.sessions.filter (fun s => !(s.host == h))).find?
      (fun s => s.host == h) = none := by
    rw [List.find?_eq_none]
    intro s hs
    have hmem := (List.mem_filter.mp hs).2
    simp only [Bool.not_eq_true'] at hmem
    simp [hmem]
  simp [hnone]

/-- A successful detachment removes the connection from the registry, never
emits 'did-close' itself, and reports success. -/
theorem removeConnection_ok_spec (st : Registry) (conn : RemoteConnection) (b : Bool)
    (env : Env) (h : env.removeConnectionResult conn.cwd = .ok ()) :
    (removeConnection st conn b env).1 = .ok () ∧
    RemoteConnection.getByHostname (removeConnection st conn b env).2.1 conn.host =
      (RemoteConnection.getByHostname st conn.host).erase conn ∧
    Event.didClose conn.cwd ∉ (removeConnection st conn b env).2.2 := by
  unfold removeConnection
  simp only [h]
  split
  case isTrue hc =>
    refine ⟨rfl, ?_, by simp⟩
    rw [getByHostname_eraseAdjust, Bool.and_eq_true] at hc
    have hlen := hc.1
    have hnil : (RemoteConnection.getByHostname st conn.host).erase conn = [] :=
      List.length_eq_zero.mp (beq_iff_eq.mp hlen)
    rw [getByHostname_closeServer, hnil]
  case isFalse hc =>
    refine ⟨rfl, ?_, by simp⟩
    exact getByHostname_eraseAdjust st conn.host conn

/-- C2 (amended): when detachment succeeds, `close` removes the connection
from the registry and emits exactly one 'removed' ('did-close')
notification; when detachment raises, the error propagates to the caller of
`close` and the notification is NOT emitted (the source has no try/finally
around the emission), leaving the registry unchanged in this model. -/
theorem close_registry_and_notification (st : Registry) (conn : RemoteConnection)
    (b : Bool) (env : Env) :
    (env.removeConnectionResult conn.cwd = .ok () →
      (RemoteConnection.close st conn b env).1 = .ok () ∧
      ((RemoteConnection.close st conn b env).2.2).count (Event.didClose conn.cwd) = 1 ∧
      RemoteConnection.getByHostname (RemoteConnection.close st conn b env).2.1 conn.host =
        (RemoteConnection.getByHostname st conn.host).erase conn) ∧
    (∀ e, env.removeConnectionResult conn.cwd = .error e →
      RemoteConnection.close st conn b env = (.error e, st, [.detach conn.cwd b]) ∧
      Event.didClose conn.cwd ∉ (RemoteConnection.close st conn b env).2.2) := by
  constructor
  · intro h
    obtain ⟨hr, hreg, hmem⟩ := removeConnection_ok_spec st conn b env h
    unfold RemoteConnection.close
    simp only [hr]
    refine ⟨trivial, ?_, hreg⟩
    rw [List.count_append]
    rw [List.count_eq_zero.mpr hmem]
    simp
  · intro e h
    have hshape : RemoteConnection.close st conn b env = (.error e, st, [.detach conn.cwd b]) := by
      unfold RemoteConnection.close removeConnection
      simp [h]
    refine ⟨hshape, ?_⟩
    rw [hshape]
    simp

/-- Witness for C2 (amended): closing the registered `connA` with a
successful detachment removes it and emits exactly one 'did-close'. -/
theorem close_registry_and_notification_witness :
    (RemoteConnection.close regA connA false envOk).1 = .ok () ∧
    ((RemoteConnection.close regA connA false envOk).2.2).count
      (Event.didClose connA.cwd) = 1 ∧
    RemoteConnection.getByHostname (RemoteConnection.close regA connA false envOk).2.1
      connA.host = (RemoteConnection.getByHostname regA connA.host).erase connA :=
  (close_registry_and_notification regA connA false envOk).1 rfl

/-- Counterexample for C2 as stated: with a failing detachment, `close`
propagates the detachment error but the 'did-close' ('removed')
notification is never emitted, and the connection is still registered. -/
theorem close_notification_claim_cex :
    RemoteConnection.close regA connA true envDetachFail =
      (.error errDetach, regA, [Event.detach "/p" true]) ∧
    Event.didClose "/p" ∉ [Event.detach "/p" true] ∧
    RemoteConnection.getByHostname regA "h" = [connA] :=
  ⟨rfl, by decide, rfl⟩

/-- An error of the saved-config phase of `reconnect` propagates to the
caller of `reconnect` only when it comes from the first (hostname-based)
attempt. -/
theorem reconnectSavedPhase_propagates (st : Registry) (host cwd displayTitle : String)
    (p : Bool) (env : Env) (e : JSError)
    (h : (RemoteConnection.createConnectionBySavedConfig st host cwd displayTitle p env).1 =
      .error e) :
    (reconnectSavedPhase st host cwd displayTitle p env).1 = .error e := by
  unfold reconnectSavedPhase
  simp [h]

/-- C3 (amended): a saved-config reuse attempt that fails with an ENOENT
condition is tagged `DIRECTORY_NOT_FOUND` and re-thrown by
`createConnectionBySavedConfig` — hence also by `reconnect`'s first,
hostname-based attempt, which is not inside a try block; a
version-mismatch failure is logged at warning severity and yields null, and
any other failure is logged at error severity and yields null.  (In
`reconnect`'s IP-fallback attempt the catch around the IP lookup swallows
even the tagged error; see the counterexample.) -/
theorem savedConfig_error_classification (st : Registry) (host cwd displayTitle : String)
    (p : Bool) (env : Env) :
    (∀ saved e, env.getConnectionConfig host = some saved →
      (RemoteConnection.findOrCreate st (cfgOfSaved saved cwd displayTitle p) env).1 =
        .error e →
      ((e.code = some "ENOENT" →
        (RemoteConnection.createConnectionBySavedConfig st host cwd displayTitle p env).1 =
          .error { e with sshHandshakeErrorType := some "DIRECTORY_NOT_FOUND" }) ∧
      (e.code ≠ some "ENOENT" → e.name = "VersionMismatchError" →
        (RemoteConnection.createConnectionBySavedConfig st host cwd displayTitle p env).1 =
          .ok none ∧
        Event.logWarn host ∈
          (RemoteConnection.createConnectionBySavedConfig st host cwd displayTitle p env).2.2) ∧
      (e.code ≠ some "ENOENT" → e.name ≠ "VersionMismatchError" →
        (RemoteConnection.createConnectionBySavedConfig st host cwd displayTitle p env).1 =
          .ok none ∧
        Event.logError host ∈
          (RemoteConnection.createConnectionBySavedConfig st host cwd displayTitle p env).2.2))) ∧
    (∀ e, (hasAtomProjectFormat cwd = true ∨
        RemoteConnection.getByHostnameAndPath st host cwd = none) →
      (RemoteConnection.createConnectionBySavedConfig st host cwd displayTitle p env).1 =
        .error e →
      (RemoteConnection.reconnect st host cwd displayTitle p env).1 = .error e) := by
  constructor
  · intro saved e hsaved hfe
    unfold RemoteConnection.createConnectionBySavedConfig
    simp only [hsaved, hfe]
    refine ⟨?_, ?_, ?_⟩
    · intro hce
      have hbe : (e.code == some "ENOENT") = true := beq_iff_eq.mpr hce
      simp [hbe]
    · intro hce hvm
      have hbe : (e.code == some "ENOENT") = false := by
        simp [hce]
      have hbn : (e.name == "VersionMismatchError") = true := beq_iff_eq.mpr hvm
      simp [hbe, hbn]
    · intro hce hvm
      have hbe : (e.code == some "ENOENT") = false := by
        simp [hce]
      have hbn : (e.name == "VersionMismatchError") = false := by
        simp [hvm]
      simp [hbe, hbn]
  · intro e hcond hcsc
    rcases hcond with hfmt | hnone
    · unfold RemoteConnection.reconnect
      simp only [hfmt]
      exact reconnectSavedPhase_propagates st host cwd displayTitle p env e hcsc
    · cases hfmt : hasAtomProjectFormat cwd with
      | true =>
        unfold RemoteConnection.reconnect
        simp only [hfmt]
        exact reconnectSavedPhase_propagates st host cwd displayTitle p env e hcsc
      | false =>
        unfold RemoteConnection.reconnect
        simp only [hfmt, hnone]
        exact reconnectSavedPhase_propagates st host cwd displayTitle p env e hcsc

/-- Witness for C3 (amended): a direct saved-config attempt for host `sh`
whose target path does not exist yields the tagged `DIRECTORY_NOT_FOUND`
error. -/
theorem savedConfig_error_classification_witness :
    (RemoteConnection.createConnectionBySavedConfig regEmpty "sh" "/c" "T" true envC3w).1 =
      .error { errEnoent with sshHandshakeErrorType := some "DIRECTORY_NOT_FOUND" } :=
  ((savedConfig_error_classification regEmpty "sh" "/c" "T" true envC3w).1
    { host := "sh", port := 1 } errEnoent rfl rfl).1 rfl

/-- Counterexample for C3 as stated: in `reconnect`'s IP-fallback, the
saved-config attempt for the resolved address `1.2.3.4` fails with the
tagged ENOENT error (first conjunct: the same attempt, called directly,
re-throws it), yet `reconnect` swallows it and returns null; its event
list shows the IP-based attempt did run. -/
theorem reconnect_ip_fallback_swallow_cex :
    (RemoteConnection.createConnectionBySavedConfig regEmpty "1.2.3.4" "/c" "T" true envC3).1 =
      .error errTagged ∧
    (RemoteConnection.reconnect regEmpty "sh" "/c" "T" true envC3).1 = .ok none ∧
    (RemoteConnection.reconnect regEmpty "sh" "/c" "T" true envC3).2.2 =
      [.configLookup "sh", .dnsLookup "sh", .configLookup "1.2.3.4",
        .serverClose "1.2.3.4"] :=
  ⟨rfl, rfl, rfl⟩

/-- Counterexample for C4 as stated: the requested remote path resolves to
the readable project descriptor `/p/a.json`, for whose (hostname, realPath)
a connection (`connAJ`) is already registered; `findOrCreate` nevertheless
takes the descriptor branch, constructs and returns a fresh connection
rooted at `/p` instead of returning the registered one. -/
theorem findOrCreate_dedup_claim_cex :
    envC4.resolveRealPath cfgC4.cwd = .ok "/p/a.json" ∧
    "/p/a.json" ≠ cfgC4.cwd ∧
    isRemote cfgC4.cwd = true ∧
    RemoteConnection.getByHostnameAndPath regAJ (getHostname cfgC4.cwd) "/p/a.json" =
      some connAJ ∧
    (RemoteConnection.findOrCreate regAJ cfgC4 envC4).1 = .ok (some connP) ∧
    connP ≠ connAJ :=
  ⟨rfl, by decide, rfl, rfl, rfl, by decide⟩

/-- C4 (amended): when the resolved real path does not yield readable
project-descriptor contents, differs from the requested remote path, and a
connection is already registered for (hostname of cwd, realPath),
`findOrCreate` returns that connection immediately: no new connection is
constructed, the registry is unchanged beyond session acquisition, and no
events are emitted. -/
theorem findOrCreate_dedup_existing (st : Registry) (cfg : Config) (env : Env)
    (realPath : String) (ex : RemoteConnection)
    (hok : env.getOrCreate cfg = .ok ())
    (hreal : env.resolveRealPath cfg.cwd = .ok realPath)
    (hcont : descriptorContents env realPath = none)
    (hne : realPath ≠ cfg.cwd)
    (hrem : isRemote cfg.cwd = true)
    (hex : RemoteConnection.getByHostnameAndPath (ensureSession st cfg.host)
      (getHostname cfg.cwd) realPath = some ex) :
    RemoteConnection.findOrCreate st cfg env =
      (.ok (some ex), ensureSession st cfg.host, []) := by
  have hres : resolveDirectories (ensureSession st cfg.host) cfg env =
      .ok (.existing ex) := by
    unfold resolveDirectories
    have hbne : (realPath != cfg.cwd) = true := bne_iff_ne.mpr hne
    simp only [hreal, hcont, hbne, hrem, Bool.and_self, if_true, hex]
  unfold RemoteConnection.findOrCreate
  simp [hok, hres]

/-- Witness for C4 (amended): the request for `nuclide://h/x` resolves to
`/p/real`, which the registered `connA` (rooted at `/p`) already covers, so
it is returned with no construction and no events. -/
theorem findOrCreate_dedup_existing_witness :
    RemoteConnection.findOrCreate regA cfgC4w envC4w =
      (.ok (some connA), ensureSession regA cfgC4w.host, []) :=
  findOrCreate_dedup_existing regA cfgC4w envC4w "/p/real" connA rfl rfl rfl
    (by decide) rfl rfl

/-- Every title handed out from a positive start index onward is empty. -/
theorem titlesFrom_pos (title : String) :
    ∀ (n i : Nat), titlesFrom title (i + 1) n = List.replicate n "" := by
  intro n
  induction n with
  | zero => intro i; rfl
  | succ m ih =>
    intro i
    have hstep : titlesFrom title (i + 1) (m + 1) =
        (if i + 1 = 0 then title else "") :: titlesFrom title (i + 1 + 1) m := rfl
    rw [hstep, if_neg (Nat.succ_ne_zero i), List.replicate_succ, ih (i + 1)]

/-- A successful init step returns the connection it was given (with only
the source-control field filled in) and emits its 'did-add'. -/
theorem initConn_ok_shape (st : Registry) (conn : RemoteConnection) (env : Env)
    (c : RemoteConnection) (h : (RemoteConnection.initConn st conn env).1 = .ok c) :
    c.cwd = conn.cwd ∧ c.displayTitle = conn.displayTitle ∧
    Event.didAdd conn.cwd conn.displayTitle ∈ (RemoteConnection.initConn st conn env).2.2 := by
  unfold RemoteConnection.initConn at h ⊢
  cases h1 : env.getHgRepository conn.cwd with
  | error e => rw [h1] at h; simp at h
  | ok repo =>
    rw [h1] at h
    cases h2 : env.watchBegin conn.cwd with
    | error e => rw [h2] at h; simp at h
    | ok u =>
      rw [h2] at h
      simp only [Except.ok.injEq] at h
      subst h
      exact ⟨rfl, rfl, by simp⟩

/-- A successful run of the per-directory init loop yields one connection
per directory, in order, with the caller's display title at absolute index
0 and the empty title elsewhere, and emits a 'did-add' for each. -/
theorem initAll_ok_spec (cfg : Config) (env : Env) :
    ∀ (dirs : List String) (st : Registry) (i : Nat) (cs : List RemoteConnection),
      (initAll st cfg dirs i env).1 = .ok cs →
      cs.map (fun c => c.cwd) = dirs ∧
      cs.map (fun c => c.displayTitle) = titlesFrom cfg.displayTitle i dirs.length ∧
      (∀ c ∈ cs, Event.didAdd c.cwd c.displayTitle ∈ (initAll st cfg dirs i env).2.2) := by
  intro dirs
  induction dirs with
  | nil =>
    intro st i cs h
    unfold initAll at h
    simp only [Except.ok.injEq] at h
    subst h
    exact ⟨rfl, rfl, by simp⟩
  | cons d rest ih =>
    intro st i cs h
    unfold initAll at h ⊢
    simp only [] at h
    cases ht : (RemoteConnection.initConn st (mkConn cfg d i) env).1 with
    | error e => rw [ht] at h; simp at h
    | ok c =>
      rw [ht] at h
      simp only [] at h
      cases hu : (initAll (RemoteConnection.initConn st (mkConn cfg d i) env).2.1
          cfg rest (i + 1) env).1 with
      | error e => rw [hu] at h; simp at h
      | ok cs' =>
        rw [hu] at h
        simp only [Except.ok.injEq] at h
        subst h
        obtain ⟨hcwd, htitle, hadd⟩ := initConn_ok_shape _ _ _ _ ht
        obtain ⟨ih1, ih2, ih3⟩ := ih _ _ _ hu
        refine ⟨?_, ?_, ?_⟩
        · simp only [List.map_cons, hcwd, ih1]
          rfl
        · simp only [List.map_cons, htitle, ih2, List.length_cons]
          rfl
        · intro x hx
          simp only [ht, hu, List.mem_append]
          rcases List.mem_cons.mp hx with hxc | hxc
          · subst hxc
            rw [hcwd, htitle]
            exact Or.inl hadd
          · exact Or.inr (ih3 x hxc)

/-- C5: when `findOrCreate` resolves to a project descriptor whose parsed
contents list directories, one connection is created per listed directory
(with its cwd resolved against the descriptor's parent), index 0 carries the
caller's display title and the others the empty title, each emits 'did-add',
and the index-0 connection is returned; when the contents list no
directories, the descriptor's parent is the sole target. -/
theorem findOrCreate_project_expansion (st : Registry) (cfg : Config) (env : Env)
    (realPath contents : String) (proj : Project)
    (hok : env.getOrCreate cfg = .ok ())
    (hreal : env.resolveRealPath cfg.cwd = .ok realPath)
    (hcont : descriptorContents env realPath = some contents)
    (hparse : parseProject env contents = .ok proj) :
    (∀ ps cs, proj.paths = some ps →
      (initAll (ensureSession st cfg.host) cfg
        (ps.map (fun q => resolvePath (dirname realPath) q)) 0 env).1 = .ok cs →
      ((RemoteConnection.findOrCreate st cfg env).1 = .ok cs.head? ∧
      cs.map (fun c => c.cwd) = ps.map (fun q => resolvePath (dirname realPath) q) ∧
      (∀ c0 rest, cs = c0 :: rest →
        c0.displayTitle = cfg.displayTitle ∧ ∀ c ∈ rest, c.displayTitle = "") ∧
      (∀ c ∈ cs, Event.didAdd c.cwd c.displayTitle ∈
        (RemoteConnection.findOrCreate st cfg env).2.2))) ∧
    (∀ cs, proj.paths = none →
      (initAll (ensureSession st cfg.host) cfg [dirname realPath] 0 env).1 = .ok cs →
      ((RemoteConnection.findOrCreate st cfg env).1 = .ok cs.head? ∧
      cs.map (fun c => c.cwd) = [dirname realPath])) := by
  constructor
  · intro ps cs hpaths hinit
    have hres : resolveDirectories (ensureSession st cfg.host) cfg env =
        .ok (.dirs (ps.map (fun q => resolvePath (dirname realPath) q))) := by
      unfold resolveDirectories
      simp only [hreal, hcont, hparse, hpaths]
    obtain ⟨hcwds, htitles, hadds⟩ := initAll_ok_spec cfg env _ _ _ _ hinit
    refine ⟨?_, hcwds, ?_, ?_⟩
    · unfold RemoteConnection.findOrCreate
      simp [hok, hres, hinit]
    · intro c0 rest hcs
      subst hcs
      have hlen2 : (ps.map (fun q => resolvePath (dirname realPath) q)).length =
          rest.length + 1 := by
        rw [← hcwds, List.length_map, List.length_cons]
      rw [hlen2] at htitles
      have hstep : titlesFrom cfg.displayTitle 0 (rest.length + 1) =
          cfg.displayTitle :: List.replicate rest.length "" := by
        show (if 0 = 0 then cfg.displayTitle else "") ::
          titlesFrom cfg.displayTitle (0 + 1) rest.length = _
        rw [if_pos rfl, titlesFrom_pos]
      rw [hstep] at htitles
      simp only [List.map_cons, List.cons.injEq] at htitles
      refine ⟨htitles.1, ?_⟩
      intro c hc
      have hcmem : c.displayTitle ∈ List.replicate rest.length "" := by
        rw [← htitles.2]
        exact List.mem_map_of_mem _ hc
      exact List.eq_of_mem_replicate hcmem
    · intro c hc
      unfold RemoteConnection.findOrCreate
      simp only [hok, hres, hinit]
      exact hadds c hc
  · intro cs hpaths hinit
    have hres : resolveDirectories (ensureSession st cfg.host) cfg env =
        .ok (.dirs [dirname realPath]) := by
      unfold resolveDirectories
      simp only [hreal, hcont, hparse, hpaths]
    obtain ⟨hcwds, htitles, hadds⟩ := initAll_ok_spec cfg env _ _ _ _ hinit
    refine ⟨?_, hcwds⟩
    unfold RemoteConnection.findOrCreate
    simp [hok, hres, hinit]

/-- Witness for C5: the descriptor `/proj/app.json` listing `["a", "b"]`
yields connections at `/proj/a` (returned, with the caller's title) and
`/proj/b`. -/
theorem findOrCreate_project_expansion_witness :
    (RemoteConnection.findOrCreate regEmpty cfgC5 envC5).1 = .ok (some cC5a) ∧
    [cC5a, cC5b].map (fun c => c.cwd) = ["/proj/a", "/proj/b"] ∧
    cC5a.displayTitle = cfgC5.displayTitle := by
  have h := (findOrCreate_project_expansion regEmpty cfgC5 envC5 "/proj/app.json" "x"
    { paths := some ["a", "b"] } rfl rfl rfl rfl).1 ["a", "b"] [cC5a, cC5b] rfl rfl
  exact ⟨h.1, h.2.1, (h.2.2.1 cC5a [cC5b] rfl).1⟩

/-- C8: when `cwd` is not a project-descriptor path and a registered
connection covers it, `reconnect` returns that connection with no saved-
config lookup, no DNS lookup, and no state change.  Otherwise `reconnect`
attempts the saved configuration by hostname first: a connection obtained
that way is returned without any IP attempt; whenever the hostname attempt
yields null — whether the store had no entry or the attempt failed and was
classified to null (e.g. a version mismatch) — the host's IP address is
resolved and the saved configuration is attempted by address, an
IP-resolution failure being swallowed into the null result; the IP
attempt's null-or-connection outcome is returned as is, so `reconnect`
returns null exactly when both attempts yield null (an error thrown by the
IP attempt is likewise swallowed to null by the same catch). -/
theorem reconnect_fast_path (st : Registry) (host cwd displayTitle : String) (p : Bool)
    (env : Env) (hfmt : hasAtomProjectFormat cwd = false) :
    (∀ c, RemoteConnection.getByHostnameAndPath st host cwd = some c →
      RemoteConnection.reconnect st host cwd displayTitle p env = (.ok (some c), st, [])) ∧
    (RemoteConnection.getByHostnameAndPath st host cwd = none →
      ((∀ c, (RemoteConnection.createConnectionBySavedConfig st host cwd displayTitle
          p env).1 = .ok (some c) →
        RemoteConnection.reconnect st host cwd displayTitle p env =
          (.ok (some c),
            (RemoteConnection.createConnectionBySavedConfig st host cwd displayTitle
              p env).2.1,
            (RemoteConnection.createConnectionBySavedConfig st host cwd displayTitle
              p env).2.2)) ∧
      ((RemoteConnection.createConnectionBySavedConfig st host cwd displayTitle
          p env).1 = .ok none →
        ((∀ e, env.lookupPreferIpv6 host = .error e →
          RemoteConnection.reconnect st host cwd displayTitle p env =
            (.ok none,
              (RemoteConnection.createConnectionBySavedConfig st host cwd displayTitle
                p env).2.1,
              (RemoteConnection.createConnectionBySavedConfig st host cwd displayTitle
                p env).2.2 ++ [.dnsLookup host])) ∧
        (∀ a, env.lookupPreferIpv6 host = .ok a →
          ((∀ r, (RemoteConnection.createConnectionBySavedConfig
              (RemoteConnection.createConnectionBySavedConfig st host cwd displayTitle
                p env).2.1 a cwd displayTitle p env).1 = .ok r →
            RemoteConnection.reconnect st host cwd displayTitle p env =
              (.ok r,
                (RemoteConnection.createConnectionBySavedConfig
                  (RemoteConnection.createConnectionBySavedConfig st host cwd
                    displayTitle p env).2.1 a cwd displayTitle p env).2.1,
                (RemoteConnection.createConnectionBySavedConfig st host cwd displayTitle
                  p env).2.2 ++ [.dnsLookup host] ++
                  (RemoteConnection.createConnectionBySavedConfig
                    (RemoteConnection.createConnectionBySavedConfig st host cwd
                      displayTitle p env).2.1 a cwd displayTitle p env).2.2)) ∧
          (∀ e, (RemoteConnection.createConnectionBySavedConfig
              (RemoteConnection.createConnectionBySavedConfig st host cwd displayTitle
                p env).2.1 a cwd displayTitle p env).1 = .error e →
            RemoteConnection.reconnect st host cwd displayTitle p env =
              (.ok none,
                (RemoteConnection.createConnectionBySavedConfig
                  (RemoteConnection.createConnectionBySavedConfig st host cwd
                    displayTitle p env).2.1 a cwd displayTitle p env).2.1,
                (RemoteConnection.createConnectionBySavedConfig st host cwd displayTitle
                  p env).2.2 ++ [.dnsLookup host] ++
                  (RemoteConnection.createConnectionBySavedConfig
                    (RemoteConnection.createConnectionBySavedConfig st host cwd
                      displayTitle p env).2.1 a cwd displayTitle p env).2.2)))))))) := by
  constructor
  · intro c hc
    unfold RemoteConnection.reconnect
    simp [hfmt, hc]
  · intro hnone
    have hred : RemoteConnection.reconnect st host cwd displayTitle p env =
        reconnectSavedPhase st host cwd displayTitle p env := by
      unfold RemoteConnection.reconnect
      simp [hfmt, hnone]
    rw [hred]
    refine ⟨?_, ?_⟩
    · intro c h1
      unfold reconnectSavedPhase
      simp [h1]
    · intro h1
      refine ⟨?_, ?_⟩
      · intro e hdns
        unfold reconnectSavedPhase
        simp [h1, hdns]
      · intro a hdns
        refine ⟨?_, ?_⟩
        · intro r h2
          unfold reconnectSavedPhase
          simp [h1, hdns, h2]
        · intro e h2
          unfold reconnectSavedPhase
          simp [h1, hdns, h2]

/-- Witness for C8: both saved-config attempts for host `vh` consult a
present saved configuration, fail with a version mismatch classified to
null, and `reconnect` returns null after trying hostname first, then the
resolved address, with the whole attempt sequence in its event trace. -/
theorem reconnect_fast_path_witness :
    (RemoteConnection.createConnectionBySavedConfig regEmpty "vh" "/c" "T" true envC8).1 =
      .ok none ∧
    (RemoteConnection.createConnectionBySavedConfig regEmpty "5.6.7.8" "/c" "T" true
      envC8).1 = .ok none ∧
    RemoteConnection.reconnect regEmpty "vh" "/c" "T" true envC8 =
      (.ok none, regEmpty,
        [.configLookup "vh", .serverClose "vh", .logWarn "vh", .dnsLookup "vh",
          .configLookup "5.6.7.8", .serverClose "5.6.7.8", .logWarn "5.6.7.8"]) :=
  ⟨rfl, rfl,
    ((((reconnect_fast_path regEmpty "vh" "/c" "T" true envC8 rfl).2 rfl).2 rfl).2
      "5.6.7.8" rfl).1 none rfl⟩
